import Mathlib

/-!
Verification of the marketplace data layer: schema rows, row-level
security policies, provisioning triggers, and the client data-access
operations, translated from the SQL migrations under supabase/migrations
and the TypeScript context providers.

Monetary values are modelled in integer cents: a numeric(10,2) column
holds exactly the multiples of 0.01, so a price of 10.00 is the integer
1000.  Storing a real number into such a column rounds it to the nearest
cent (half away from zero); for the positive quotients that arise here
this is round-half-up, modelled by roundHalfUpDiv.
-/

namespace Bolt

/-- Identifier of an authenticated principal; the uuid is abstracted as a natural number. -/
abbrev UserId := Nat

/-- Product identifier, likewise abstracted. -/
abbrev ProductId := Nat

/-- Structured backend error categories surfaced by the data layer. -/
inductive DbError where
  | uniqueViolation
  | checkViolation
  | network
  deriving DecidableEq, Repr

/-- Row of the profiles table (teal_sea migration lines 27-37, plus the jsonb wishlist column added by the later migrations, default empty array). -/
structure ProfileRow where
  id : UserId
  full_name : String
  role : String
  email : String
  wishlist : List ProductId
  updated_at : Nat
  deriving DecidableEq, Repr

/-- Row of the sellers table (teal_sea migration lines 40-50). -/
structure SellerRow where
  id : Nat
  user_id : UserId
  store_name : String
  updated_at : Nat
  deriving DecidableEq, Repr

/-- Row of the products table (teal_sea migration lines 53-66); price in cents. -/
structure ProductRow where
  id : ProductId
  seller_id : UserId
  title : String
  priceCents : Int
  stock : Int
  is_active : Bool
  updated_at : Nat
  deriving DecidableEq, Repr

/-- Row of the orders table (teal_sea migration lines 69-81); prices in cents, status as the stored text value. -/
structure OrderRow where
  id : Nat
  buyer_id : UserId
  seller_id : UserId
  product_id : ProductId
  quantity : Int
  unit_priceCents : Int
  total_priceCents : Int
  status : String
  updated_at : Nat
  deriving DecidableEq, Repr

/-- Row of the messages table (teal_sea migration lines 84-93), restricted to the columns the update policies mention. -/
structure MessageRow where
  id : Nat
  from_user_id : UserId
  to_user_id : UserId
  is_read : Bool
  deriving DecidableEq, Repr

/-- Row of the cart_items table (teal_sea migration lines 96-103) for the cart of a single user; the quantity column carries CHECK (quantity > 0). -/
structure CartRow where
  user_id : UserId
  product_id : ProductId
  quantity : Int
  deriving DecidableEq, Repr

/-- SQL operation kinds gated by row-level security. -/
inductive SqlOp where
  | select
  | insert
  | update
  | delete
  deriving DecidableEq, Repr

/-- Command scope of a CREATE POLICY statement (FOR ALL / FOR SELECT / FOR INSERT / FOR UPDATE / FOR DELETE). -/
inductive PolicyCmd where
  | forAll
  | forSelect
  | forInsert
  | forUpdate
  | forDelete
  deriving DecidableEq, Repr

/-- Whether a policy command scope covers an operation. -/
def PolicyCmd.covers : PolicyCmd → SqlOp → Bool
  | .forAll, _ => true
  | .forSelect, .select => true
  | .forInsert, .insert => true
  | .forUpdate, .update => true
  | .forDelete, .delete => true
  | _, _ => false

/-- One row-security policy: its command scope and its USING predicate over (caller identity, row). -/
structure Policy (Row : Type) where
  cmd : PolicyCmd
  usingPred : UserId → Row → Bool

/-- Permissive-policy semantics: an operation on a row is allowed when some policy covering that operation has a true USING predicate (multiple permissive policies are disjoined). -/
def allowedBy (ps : List (Policy Row)) (op : SqlOp) (caller : UserId) (row : Row) : Bool :=
  ps.any fun p => p.cmd.covers op && p.usingPred caller row

/-- Policies on products from the teal_sea migration, lines 156-166: "Sellers can manage own products" (FOR ALL, seller_id = auth.uid()) and "Anyone can read active products" (FOR SELECT, is_active = true). -/
def productPolicies : List (Policy ProductRow) :=
  [ { cmd := .forAll, usingPred := fun caller r => r.seller_id == caller },
    { cmd := .forSelect, usingPred := fun _ r => r.is_active } ]

/-- Policies on orders from the teal_sea migration, lines 169-185: read when buyer or seller, insert when buyer, update when seller. -/
def orderPolicies : List (Policy OrderRow) :=
  [ { cmd := .forSelect, usingPred := fun caller o => o.buyer_id == caller || o.seller_id == caller },
    { cmd := .forInsert, usingPred := fun caller o => o.buyer_id == caller },
    { cmd := .forUpdate, usingPred := fun caller o => o.seller_id == caller } ]

/-- USING predicate of the messages UPDATE policy "Users can update own messages" in the teal_sea migration, lines 200-204: to_user_id = auth.uid(). -/
def msgUpdateUsingTeal (caller : UserId) (m : MessageRow) : Bool :=
  m.to_user_id == caller

/-- USING predicate of the messages UPDATE policy "Users can update own messages" in the young_dream migration, lines 91-92: from_user_id = auth.uid() OR to_user_id = auth.uid(). -/
def msgUpdateUsingYoung (caller : UserId) (m : MessageRow) : Bool :=
  m.from_user_id == caller || m.to_user_id == caller

/-- Effect of the client markMessageAsRead call (UPDATE messages SET is_read = true WHERE id = mid) under a given UPDATE policy: a row is changed only when it is the target and the policy exposes both the old and the new row (the policies declare no separate WITH CHECK, so USING is checked on both). -/
def markMessageAsRead (pol : UserId → MessageRow → Bool) (caller : UserId) (mid : Nat)
    (tbl : List MessageRow) : List MessageRow :=
  tbl.map fun m =>
    if m.id == mid && pol caller m && pol caller { m with is_read := true } then
      { m with is_read := true }
    else m

/-- CHECK constraint on orders.status (teal_sea migration line 77): the stored text must be one of the five enumerated values. -/
def orderStatusCheck (s : String) : Bool :=
  s == "pending" || s == "confirmed" || s == "shipped" || s == "delivered" || s == "cancelled"

/-- Modelled from the words of the spec for comparison with the code: the order-status transition relation pending to confirmed or cancelled, confirmed to shipped, shipped to delivered, with delivered and cancelled terminal.  No definition in the source enforces this relation. -/
def specOrderTransition : String → String → Bool
  | "pending", "confirmed" => true
  | "pending", "cancelled" => true
  | "confirmed", "shipped" => true
  | "shipped", "delivered" => true
  | _, _ => false

/-- UPDATE orders SET status = newStatus WHERE id = oid, as the backend executes it: the status CHECK aborts the whole statement, otherwise rows exposed by the seller-only update policy (teal_sea lines 181-185) take the new status, and the orders_updated_at trigger stamps the server time. -/
def updateOrderStatus (now : Nat) (caller : UserId) (oid : Nat) (newStatus : String)
    (tbl : List OrderRow) : Except DbError (List OrderRow) :=
  if orderStatusCheck newStatus then
    .ok (tbl.map fun o =>
      if o.id == oid && allowedBy orderPolicies .update caller o then
        { o with status := newStatus, updated_at := now }
      else o)
  else .error .checkViolation

/-- Round-half-up integer division for nonnegative operands: the value stored by a numeric(10,2) column for the real quotient a / b when a is in cents. -/
def roundHalfUpDiv (a b : Int) : Int :=
  (2 * a + b) / (2 * b)

/-- Fields of an order INSERT request sent by the client. -/
structure OrderInsert where
  buyer_id : UserId
  seller_id : UserId
  product_id : ProductId
  quantity : Int
  unit_priceCents : Int
  total_priceCents : Int
  status : String
  deriving DecidableEq, Repr

/-- Order row built by createOrder in the context provider (src/unnamed/part_002, lines 425-456): unit_price is the product price, total_price is price * quantity, and no status field is sent so the column default pending applies.  No validation of the total is performed. -/
def createOrderRow (buyer : UserId) (p : ProductRow) (qty : Int) : OrderInsert :=
  { buyer_id := buyer
    seller_id := p.seller_id
    product_id := p.id
    quantity := qty
    unit_priceCents := p.priceCents
    total_priceCents := p.priceCents * qty
    status := "pending" }

/-- Order row built by addOrderFunc in AuthContext.tsx, lines 472-496: total_price is the caller-supplied price_paid, unit_price is price_paid / quantity as stored by the numeric(10,2) column, and the caller-supplied status string is passed through unchanged. -/
def addOrderRow (buyer : UserId) (sellerId : UserId) (pid : ProductId) (qty : Int)
    (pricePaidCents : Int) (status : String) : OrderInsert :=
  { buyer_id := buyer
    seller_id := sellerId
    product_id := pid
    quantity := qty
    unit_priceCents := roundHalfUpDiv pricePaidCents qty
    total_priceCents := pricePaidCents
    status := status }

/-- Client-side control flow of addOrderFunc: it throws only when no user is logged in or the product lookup fails; in every other case it submits the constructed row, with no validation of total_price against unit_price * quantity before the insert. -/
def addOrderFunc (loggedIn : Bool) (product : Option ProductRow) (buyer : UserId)
    (qty : Int) (pricePaidCents : Int) (status : String) : Option OrderInsert :=
  if loggedIn then
    match product with
    | some p => some (addOrderRow buyer p.seller_id p.id qty pricePaidCents status)
    | none => none
  else none

/-- Authentication event payload for a newly created identity: the auth.users row together with its raw_user_meta_data fields. -/
structure AuthUser where
  id : UserId
  email : String
  meta_full_name : Option String
  meta_role : Option String
  deriving DecidableEq, Repr

/-- Primary-key-checked INSERT into profiles: a duplicate id raises a unique violation and persists nothing. -/
def insertProfile (tbl : List ProfileRow) (p : ProfileRow) : Except DbError (List ProfileRow) :=
  if tbl.any fun r => r.id == p.id then .error .uniqueViolation
  else .ok (tbl ++ [p])

/-- Profile row the handle_new_user trigger inserts for a new auth user: full_name defaults to the placeholder and role to buyer when the signup metadata omits them; wishlist defaults to the empty array and the timestamp columns to the current server time. -/
def newProfileRow (now : Nat) (u : AuthUser) : ProfileRow :=
  { id := u.id
    full_name := u.meta_full_name.getD "Usuário"
    role := u.meta_role.getD "buyer"
    email := u.email
    wishlist := []
    updated_at := now }

/-- Trigger function handle_new_user (teal_sea migration lines 221-233), fired AFTER INSERT on auth.users: a plain INSERT into profiles with no ON CONFLICT clause, so the primary-key check applies. -/
def handle_new_user (tbl : List ProfileRow) (now : Nat) (u : AuthUser) :
    Except DbError (List ProfileRow) :=
  insertProfile tbl (newProfileRow now u)

/-- Trigger function handle_updated_at (teal_sea migration lines 242-248) fired BEFORE UPDATE on profiles: the NEW row is stored with updated_at overwritten by the current server time. -/
def handleUpdatedAtProfile (now : Nat) (newRow : ProfileRow) : ProfileRow :=
  { newRow with updated_at := now }

/-- Same trigger function attached to sellers (sellers_updated_at). -/
def handleUpdatedAtSeller (now : Nat) (newRow : SellerRow) : SellerRow :=
  { newRow with updated_at := now }

/-- Same trigger function attached to products (products_updated_at). -/
def handleUpdatedAtProduct (now : Nat) (newRow : ProductRow) : ProductRow :=
  { newRow with updated_at := now }

/-- Same trigger function attached to orders (orders_updated_at). -/
def handleUpdatedAtOrder (now : Nat) (newRow : OrderRow) : OrderRow :=
  { newRow with updated_at := now }

/-- UPDATE on profiles under "Users can update own profile" (auth.uid() = id, teal_sea lines 130-134) with the profiles_updated_at trigger: the caller-supplied NEW row replaces each targeted row the policy exposes, after the trigger overwrites updated_at. -/
def profilesUpdate (now : Nat) (caller : UserId) (target : UserId) (newRow : ProfileRow)
    (tbl : List ProfileRow) : List ProfileRow :=
  tbl.map fun r =>
    if r.id == target && (caller == r.id) then handleUpdatedAtProfile now newRow else r

/-- UPDATE on sellers under "Sellers can manage own store" (user_id = auth.uid(), teal_sea lines 143-147) with the sellers_updated_at trigger. -/
def sellersUpdate (now : Nat) (caller : UserId) (target : Nat) (newRow : SellerRow)
    (tbl : List SellerRow) : List SellerRow :=
  tbl.map fun r =>
    if r.id == target && (r.user_id == caller) then handleUpdatedAtSeller now newRow else r

/-- UPDATE on products under the products policy set with the products_updated_at trigger. -/
def productsUpdate (now : Nat) (caller : UserId) (target : ProductId) (newRow : ProductRow)
    (tbl : List ProductRow) : List ProductRow :=
  tbl.map fun r =>
    if r.id == target && allowedBy productPolicies .update caller r then
      handleUpdatedAtProduct now newRow
    else r

/-- UPDATE on orders under the orders policy set with the orders_updated_at trigger. -/
def ordersUpdate (now : Nat) (caller : UserId) (target : Nat) (newRow : OrderRow)
    (tbl : List OrderRow) : List OrderRow :=
  tbl.map fun o =>
    if o.id == target && allowedBy orderPolicies .update caller o then
      handleUpdatedAtOrder now newRow
    else o

/-- DELETE on products: only rows exposed by the delete policy are removed. -/
def productsDelete (caller : UserId) (target : ProductId) (tbl : List ProductRow) :
    List ProductRow :=
  tbl.filter fun r => !(r.id == target && allowedBy productPolicies .delete caller r)

/-- SELECT on products: row-level security filters the table down to the rows some select policy exposes. -/
def productsSelectVisible (caller : UserId) (tbl : List ProductRow) : List ProductRow :=
  tbl.filter fun r => allowedBy productPolicies .select caller r

/-- SELECT on orders: row-level security filters the table down to the rows the select policy exposes to the caller. -/
def ordersSelectVisible (caller : UserId) (tbl : List OrderRow) : List OrderRow :=
  tbl.filter fun o => allowedBy orderPolicies .select caller o

/-- Select of a single order by id, as fetchOrders restricted to one id executes it: policy-hidden rows are silently filtered, and the request succeeds with the surviving rows — hiding a row never turns the select into an error. -/
def fetchOrderById (caller : UserId) (oid : Nat) (tbl : List OrderRow) :
    Except DbError (List OrderRow) :=
  .ok ((ordersSelectVisible caller tbl).filter fun o => o.id == oid)

/-- Client view state touched by the wishlist and like features: the profiles.wishlist jsonb array of the current user, the set of product_likes rows of the current user (a duplicate-free list), and the rows of the wishlist table, which the context providers never write. -/
structure ClientState where
  wishlistArr : List ProductId
  likes : List ProductId
  wishlistTbl : List (UserId × ProductId)
  deriving DecidableEq, Repr

/-- toggleProductLike (AuthContext.tsx lines 528-558): when the product is in the like set, delete the product_likes row and remove it from the set; otherwise insert the row and add it. -/
def toggleProductLike (pid : ProductId) (s : ClientState) : ClientState :=
  if s.likes.contains pid then
    { s with likes := s.likes.filter fun x => !(x == pid) }
  else
    { s with likes := s.likes ++ [pid] }

/-- toggleWishlist (AuthContext.tsx lines 639-663): filter the product out of the profiles.wishlist array when present, append it otherwise, persist the new array to profiles, then toggle the product like.  The wishlist table itself is never touched. -/
def toggleWishlist (pid : ProductId) (s : ClientState) : ClientState :=
  let cur := s.wishlistArr
  let newW := if cur.contains pid then cur.filter (fun x => !(x == pid)) else cur ++ [pid]
  toggleProductLike pid { s with wishlistArr := newW }

/-- Outcome of one data-access operation as its caller observes it: the value returned or error raised, together with what was written to the console log. -/
structure OpOutcome (α : Type) where
  result : Except DbError α
  logged : List DbError
  deriving Repr

/-- Error path of toggleWishlist (AuthContext.tsx lines 505-526): the backend call sits in a try block whose catch only logs the error; the function returns normally either way and hands no error to its caller. -/
def toggleWishlistOutcome (dbRes : Except DbError Unit) : OpOutcome Unit :=
  match dbRes with
  | .ok _ => { result := .ok (), logged := [] }
  | .error e => { result := .ok (), logged := [e] }

/-- Error path of toggleProductLike (AuthContext.tsx lines 528-558): same shape — the catch logs the error and the function returns normally. -/
def toggleProductLikeOutcome (dbRes : Except DbError Unit) : OpOutcome Unit :=
  match dbRes with
  | .ok _ => { result := .ok (), logged := [] }
  | .error e => { result := .ok (), logged := [e] }

/-- Error path of addProduct (src/unnamed/part_002 lines 253-296): the supabase error object is returned to the caller unchanged in the result record, and local state is updated only on success. -/
def addProductOutcome (dbRes : Except DbError Unit) : OpOutcome Unit :=
  match dbRes with
  | .ok _ => { result := .ok (), logged := [] }
  | .error e => { result := .error e, logged := [] }

/-- removeFromCart (src/unnamed/part_002 lines 393-407) on the cart of the current user: delete the row for the product. -/
def removeFromCart (pid : ProductId) (s : List CartRow) : List CartRow :=
  s.filter fun r => !(r.product_id == pid)

/-- updateCartQuantity (src/unnamed/part_002 lines 371-391): a quantity of zero or less routes to removeFromCart; otherwise the row for the product takes the new quantity, which the guard has ensured is positive, so the cart_items CHECK passes. -/
def updateCartQuantity (pid : ProductId) (q : Int) (s : List CartRow) : List CartRow :=
  if q ≤ 0 then removeFromCart pid s
  else s.map fun r => if r.product_id == pid then { r with quantity := q } else r

/-- addToCart (src/unnamed/part_002 lines 338-369): when the product is already in the cart, route to updateCartQuantity with the summed quantity; otherwise insert a new row, which the cart_items CHECK (quantity > 0) rejects when the quantity is not positive, leaving the state unchanged. -/
def addToCart (uid : UserId) (pid : ProductId) (q : Int) (s : List CartRow) : List CartRow :=
  match s.find? (fun r => r.product_id == pid) with
  | some item => updateCartQuantity pid (item.quantity + q) s
  | none => if q ≤ 0 then s else s ++ [{ user_id := uid, product_id := pid, quantity := q }]

/-- Cart operations a client can issue. -/
inductive CartOp where
  | add (pid : ProductId) (q : Int)
  | setQty (pid : ProductId) (q : Int)
  | remove (pid : ProductId)
  | clear
  deriving DecidableEq, Repr

/-- One step of the cart state machine. -/
def applyCartOp (uid : UserId) (s : List CartRow) : CartOp → List CartRow
  | .add pid q => addToCart uid pid q s
  | .setQty pid q => updateCartQuantity pid q s
  | .remove pid => removeFromCart pid s
  | .clear => []

/-- Cart state reached from the empty cart by a sequence of operations. -/
def runCart (uid : UserId) (ops : List CartOp) : List CartRow :=
  ops.foldl (applyCartOp uid) []

/-- The orders UPDATE operation is gated exactly by the seller predicate of "Sellers can update order status". -/
theorem allowedBy_orders_update (caller : UserId) (o : OrderRow) :
    allowedBy orderPolicies .update caller o = (o.seller_id == caller) := by
  simp [allowedBy, orderPolicies, PolicyCmd.covers]

/-- The orders SELECT operation is gated exactly by the buyer-or-seller predicate of "Users can read own orders". -/
theorem allowedBy_orders_select (caller : UserId) (o : OrderRow) :
    allowedBy orderPolicies .select caller o = (o.buyer_id == caller || o.seller_id == caller) := by
  simp [allowedBy, orderPolicies, PolicyCmd.covers]

/-- The products SELECT operation is allowed exactly for active rows or the owning seller. -/
theorem allowedBy_products_select (caller : UserId) (r : ProductRow) :
    allowedBy productPolicies .select caller r = (r.is_active || r.seller_id == caller) := by
  cases hr : r.is_active <;> cases hs : r.seller_id == caller <;>
    simp [allowedBy, productPolicies, PolicyCmd.covers, hr, hs]

/-- The products UPDATE operation is allowed exactly for the owning seller. -/
theorem allowedBy_products_update (caller : UserId) (r : ProductRow) :
    allowedBy productPolicies .update caller r = (r.seller_id == caller) := by
  simp [allowedBy, productPolicies, PolicyCmd.covers]

/-- The products DELETE operation is allowed exactly for the owning seller. -/
theorem allowedBy_products_delete (caller : UserId) (r : ProductRow) :
    allowedBy productPolicies .delete caller r = (r.seller_id == caller) := by
  simp [allowedBy, productPolicies, PolicyCmd.covers]

/-- C1 counterexample: under the messages UPDATE policy of the latest migration (young_dream, lines 91-92), the sender of a message — caller 1 on a message with from_user_id 1 and to_user_id 2 — is permitted to set is_read to true, so the policy set does not deny that update to the sender. -/
theorem c1_sender_can_mark_read_cex :
    markMessageAsRead msgUpdateUsingYoung 1 0
        [{ id := 0, from_user_id := 1, to_user_id := 2, is_read := false }]
      = [{ id := 0, from_user_id := 1, to_user_id := 2, is_read := true }] ∧
    (1 : UserId) ≠ 2 := by
  decide

/-- C1 amended: the two migrations state different messages UPDATE policies.  Under the teal_sea policy an is_read update on a message goes through exactly when the caller is the recipient; under the later young_dream policy it goes through exactly when the caller is the sender or the recipient, so only the teal_sea variant denies the sender. -/
theorem c1_message_read_policy_variants (c : UserId) (m : MessageRow) :
    markMessageAsRead msgUpdateUsingTeal c m.id [m]
      = [if m.to_user_id == c then { m with is_read := true } else m] ∧
    markMessageAsRead msgUpdateUsingYoung c m.id [m]
      = [if m.from_user_id == c || m.to_user_id == c then { m with is_read := true } else m] := by
  constructor
  · by_cases h : m.to_user_id = c <;>
      simp [markMessageAsRead, msgUpdateUsingTeal, h]
  · by_cases hf : m.from_user_id = c <;> by_cases ht : m.to_user_id = c <;>
      simp [markMessageAsRead, msgUpdateUsingYoung, hf, ht]

/-- C2 counterexample: the seller (caller 2) updates an order in the terminal state delivered back to pending; the CHECK constraint and the update policy both pass, the stored status changes, yet the transition delivered-to-pending is outside the transition relation of the spec. -/
theorem c2_terminal_state_escape_cex :
    updateOrderStatus 7 2 0 "pending"
        [{ id := 0, buyer_id := 1, seller_id := 2, product_id := 3, quantity := 1,
           unit_priceCents := 100, total_priceCents := 100, status := "delivered",
           updated_at := 0 }]
      = .ok [{ id := 0, buyer_id := 1, seller_id := 2, product_id := 3, quantity := 1,
               unit_priceCents := 100, total_priceCents := 100, status := "pending",
               updated_at := 7 }] ∧
    specOrderTransition "delivered" "pending" = false := by
  constructor
  · rfl
  · rfl

/-- C2 amended: the backend constrains order status to the five enumerated values (a CHECK violation aborts the update), and only the seller passes the update policy (any other caller leaves the row unchanged); but the seller may set any enumerated status regardless of the current one — the transition relation of the spec is not enforced anywhere in the code. -/
theorem c2_order_status_update_behaviour (now : Nat) (caller : UserId) (o : OrderRow) (s : String) :
    (orderStatusCheck s = false → updateOrderStatus now caller o.id s [o] = .error .checkViolation) ∧
    (orderStatusCheck s = true → o.seller_id ≠ caller →
      updateOrderStatus now caller o.id s [o] = .ok [o]) ∧
    (orderStatusCheck s = true → o.seller_id = caller →
      updateOrderStatus now caller o.id s [o] = .ok [{ o with status := s, updated_at := now }]) := by
  refine ⟨fun hc => ?_, fun hc hne => ?_, fun hc he => ?_⟩
  · simp [updateOrderStatus, hc]
  · simp [updateOrderStatus, hc, allowedBy_orders_update, hne]
  · simp [updateOrderStatus, hc, allowedBy_orders_update, he]

/-- C2 witness: the amended behaviour evaluated at a concrete order — a non-seller caller leaves the row unchanged and the seller moves it to confirmed. -/
theorem c2_order_status_update_witness :
    updateOrderStatus 9 4 0 "confirmed"
        [{ id := 0, buyer_id := 1, seller_id := 2, product_id := 3, quantity := 1,
           unit_priceCents := 100, total_priceCents := 100, status := "pending",
           updated_at := 0 }]
      = .ok [{ id := 0, buyer_id := 1, seller_id := 2, product_id := 3, quantity := 1,
               unit_priceCents := 100, total_priceCents := 100, status := "pending",
               updated_at := 0 }] :=
  (c2_order_status_update_behaviour 9 4
      { id := 0, buyer_id := 1, seller_id := 2, product_id := 3, quantity := 1,
        unit_priceCents := 100, total_priceCents := 100, status := "pending",
        updated_at := 0 } "confirmed").2.1 (by decide) (by decide)

/-- C3 counterexample: addOrderFunc submits — rather than rejects — an order-creation request with price_paid 10.00 (1000 cents) and quantity 3 whose row violates the total equation: the numeric(10,2) column stores unit_price 3.33 (333 cents), and 333 * 3 = 999 is not 1000. -/
theorem c3_total_price_unvalidated_cex :
    addOrderFunc true
        (some { id := 5, seller_id := 2, title := "x", priceCents := 334, stock := 1,
                is_active := true, updated_at := 0 }) 1 3 1000 "pendente"
      = some { buyer_id := 1, seller_id := 2, product_id := 5, quantity := 3,
               unit_priceCents := 333, total_priceCents := 1000, status := "pendente" } ∧
    (1000 : Int) ≠ 333 * 3 := by
  decide

/-- C3 amended: orders created through createOrder satisfy total_price = unit_price * quantity by construction, because the client computes total_price as price * quantity; no path validates the equation before insertion — addOrderFunc submits its row unconditionally whenever the product lookup succeeds, including rows that violate it. -/
theorem c3_total_price_by_construction (buyer : UserId) (p : ProductRow) (qty : Int)
    (pricePaidCents : Int) (status : String) :
    (createOrderRow buyer p qty).total_priceCents
      = (createOrderRow buyer p qty).unit_priceCents * (createOrderRow buyer p qty).quantity ∧
    addOrderFunc true (some p) buyer qty pricePaidCents status
      = some (addOrderRow buyer p.seller_id p.id qty pricePaidCents status) := by
  exact ⟨rfl, rfl⟩

/-- C4 counterexample: delivering the same identity-creation event twice — the first trigger run inserts the profile, and the retried run fails with a unique violation instead of succeeding idempotently. -/
theorem c4_retried_event_fails_cex :
    (handle_new_user [] 0 { id := 1, email := "a", meta_full_name := none, meta_role := none }).bind
        (fun tbl =>
          handle_new_user tbl 0 { id := 1, email := "a", meta_full_name := none, meta_role := none })
      = .error .uniqueViolation := by
  rfl

/-- C4 amended: when no profile with the new identity exists yet, handle_new_user inserts exactly one profile row for it; re-delivering the same identity-creation event does not create a duplicate, but the retried event fails with a unique violation because the INSERT carries no ON CONFLICT clause. -/
theorem c4_profile_exactly_once (tbl : List ProfileRow) (now : Nat) (u : AuthUser)
    (h : ∀ r ∈ tbl, r.id ≠ u.id) :
    handle_new_user tbl now u = .ok (tbl ++ [newProfileRow now u]) ∧
    ((tbl ++ [newProfileRow now u]).filter fun r => r.id == u.id).length = 1 ∧
    handle_new_user (tbl ++ [newProfileRow now u]) now u = .error .uniqueViolation := by
  have hany : (tbl.any fun r => r.id == u.id) = false := by
    simp only [List.any_eq_false, beq_iff_eq]
    exact h
  refine ⟨?_, ?_, ?_⟩
  · have hany2 : (tbl.any fun r => r.id == (newProfileRow now u).id) = false := hany
    simp only [handle_new_user, insertProfile]
    rw [hany2]
    simp
  · have hfil : (tbl.filter fun r => r.id == u.id) = [] := by
      simp only [List.filter_eq_nil_iff, beq_iff_eq]
      exact h
    rw [List.filter_append, hfil]
    simp [newProfileRow]
  · simp [handle_new_user, insertProfile, List.any_append, hany, newProfileRow]

/-- C4 witness: the amended statement evaluated on the empty table and a concrete identity. -/
theorem c4_profile_exactly_once_witness :
    handle_new_user [] 0 { id := 1, email := "a", meta_full_name := none, meta_role := none }
      = .ok (([] : List ProfileRow)
          ++ [newProfileRow 0 { id := 1, email := "a", meta_full_name := none, meta_role := none }]) ∧
    ((([] : List ProfileRow)
        ++ [newProfileRow 0 { id := 1, email := "a", meta_full_name := none, meta_role := none }]).filter
          fun r => r.id == (1 : UserId)).length = 1 ∧
    handle_new_user
        (([] : List ProfileRow)
          ++ [newProfileRow 0 { id := 1, email := "a", meta_full_name := none, meta_role := none }]) 0
        { id := 1, email := "a", meta_full_name := none, meta_role := none }
      = .error .uniqueViolation :=
  c4_profile_exactly_once [] 0
    { id := 1, email := "a", meta_full_name := none, meta_role := none } (by simp)

/-- C5: the products policy set exposes a row to SELECT exactly when the product is active or the caller is its owning seller, permits UPDATE and DELETE exactly for the owning seller, and an update or delete attempted by any other caller leaves the table unchanged. -/
theorem c5_products_policy_set (caller : UserId) (r : ProductRow) (now : Nat)
    (newRow : ProductRow) :
    allowedBy productPolicies .select caller r = (r.is_active || r.seller_id == caller) ∧
    allowedBy productPolicies .update caller r = (r.seller_id == caller) ∧
    allowedBy productPolicies .delete caller r = (r.seller_id == caller) ∧
    (r.seller_id ≠ caller →
      productsUpdate now caller r.id newRow [r] = [r] ∧ productsDelete caller r.id [r] = [r]) := by
  refine ⟨allowedBy_products_select caller r, allowedBy_products_update caller r,
    allowedBy_products_delete caller r, fun hne => ⟨?_, ?_⟩⟩
  · simp [productsUpdate, allowedBy_products_update, hne]
  · simp [productsDelete, allowedBy_products_delete, hne]

/-- C5 witness: an inactive product of seller 2 is invisible to caller 3 and immune to caller 3 writes. -/
theorem c5_products_policy_set_witness :
    allowedBy productPolicies .select 3
        { id := 1, seller_id := 2, title := "t", priceCents := 100, stock := 0,
          is_active := false, updated_at := 0 } = false ∧
    allowedBy productPolicies .update 3
        { id := 1, seller_id := 2, title := "t", priceCents := 100, stock := 0,
          is_active := false, updated_at := 0 } = false ∧
    allowedBy productPolicies .delete 3
        { id := 1, seller_id := 2, title := "t", priceCents := 100, stock := 0,
          is_active := false, updated_at := 0 } = false ∧
    (productsUpdate 9 3 1
          { id := 1, seller_id := 2, title := "u", priceCents := 200, stock := 1,
            is_active := true, updated_at := 5 }
          [{ id := 1, seller_id := 2, title := "t", priceCents := 100, stock := 0,
             is_active := false, updated_at := 0 }]
        = [{ id := 1, seller_id := 2, title := "t", priceCents := 100, stock := 0,
             is_active := false, updated_at := 0 }] ∧
      productsDelete 3 1
          [{ id := 1, seller_id := 2, title := "t", priceCents := 100, stock := 0,
             is_active := false, updated_at := 0 }]
        = [{ id := 1, seller_id := 2, title := "t", priceCents := 100, stock := 0,
             is_active := false, updated_at := 0 }]) :=
  ⟨(c5_products_policy_set 3
      { id := 1, seller_id := 2, title := "t", priceCents := 100, stock := 0,
        is_active := false, updated_at := 0 } 9
      { id := 1, seller_id := 2, title := "u", priceCents := 200, stock := 1,
        is_active := true, updated_at := 5 }).1,
   (c5_products_policy_set 3
      { id := 1, seller_id := 2, title := "t", priceCents := 100, stock := 0,
        is_active := false, updated_at := 0 } 9
      { id := 1, seller_id := 2, title := "u", priceCents := 200, stock := 1,
        is_active := true, updated_at := 5 }).2.1,
   (c5_products_policy_set 3
      { id := 1, seller_id := 2, title := "t", priceCents := 100, stock := 0,
        is_active := false, updated_at := 0 } 9
      { id := 1, seller_id := 2, title := "u", priceCents := 200, stock := 1,
        is_active := true, updated_at := 5 }).2.2.1,
   (c5_products_policy_set 3
      { id := 1, seller_id := 2, title := "t", priceCents := 100, stock := 0,
        is_active := false, updated_at := 0 } 9
      { id := 1, seller_id := 2, title := "u", priceCents := 200, stock := 1,
        is_active := true, updated_at := 5 }).2.2.2 (by decide)⟩

/-- C6: for a caller who is neither buyer nor seller of an order, the select by id behaves on a table containing the order exactly as on the table without it, and on the singleton table it succeeds with the empty list — the hidden order is indistinguishable from a non-existent one and never surfaces as an error. -/
theorem c6_hidden_order_indistinguishable (caller : UserId) (o : OrderRow) (tbl : List OrderRow)
    (hb : o.buyer_id ≠ caller) (hs : o.seller_id ≠ caller) :
    fetchOrderById caller o.id (o :: tbl) = fetchOrderById caller o.id tbl ∧
    fetchOrderById caller o.id [o] = .ok [] := by
  constructor
  · simp [fetchOrderById, ordersSelectVisible, allowedBy_orders_select, hb, hs]
  · simp [fetchOrderById, ordersSelectVisible, allowedBy_orders_select, hb, hs]

/-- C6 witness: caller 9 is neither buyer 1 nor seller 2 of the concrete order, sees the same empty answer with and without the order present, and receives a successful empty result. -/
theorem c6_hidden_order_indistinguishable_witness :
    fetchOrderById 9 0
        ({ id := 0, buyer_id := 1, seller_id := 2, product_id := 3, quantity := 1,
           unit_priceCents := 100, total_priceCents := 100, status := "pending",
           updated_at := 0 } :: [])
      = fetchOrderById 9 0 [] ∧
    fetchOrderById 9 0
        [{ id := 0, buyer_id := 1, seller_id := 2, product_id := 3, quantity := 1,
           unit_priceCents := 100, total_priceCents := 100, status := "pending",
           updated_at := 0 }]
      = .ok [] :=
  c6_hidden_order_indistinguishable 9
    { id := 0, buyer_id := 1, seller_id := 2, product_id := 3, quantity := 1,
      unit_priceCents := 100, total_priceCents := 100, status := "pending", updated_at := 0 }
    [] (by decide) (by decide)

/-- C7 counterexample: toggling the wishlist on product 7 from the empty state adds 7 to the profiles.wishlist array and to the product_likes set, but the wishlist table stays empty — no WishlistEntry row is created, because the client never writes that table. -/
theorem c7_no_wishlist_row_cex :
    toggleWishlist 7 { wishlistArr := [], likes := [], wishlistTbl := [] }
      = { wishlistArr := [7], likes := [7], wishlistTbl := [] } := by
  decide

/-- C7 amended: when the product is not yet in the wishlist array nor liked, toggling adds it to the profiles.wishlist array and creates a product_likes row — not a WishlistEntry row, the wishlist table is untouched — and toggling again removes both, so two consecutive toggles restore the initial state exactly. -/
theorem c7_toggle_involution (pid : ProductId) (s : ClientState)
    (hw : pid ∉ s.wishlistArr) (hl : pid ∉ s.likes) :
    toggleWishlist pid s
      = { s with wishlistArr := s.wishlistArr ++ [pid], likes := s.likes ++ [pid] } ∧
    (toggleWishlist pid s).wishlistTbl = s.wishlistTbl ∧
    toggleWishlist pid (toggleWishlist pid s) = s := by
  have hcw : s.wishlistArr.contains pid = false := by
    simpa using hw
  have hcl : s.likes.contains pid = false := by
    simpa using hl
  have hwX : ∀ a ∈ s.wishlistArr, (!(a == pid)) = true := by
    intro a ha
    simp only [Bool.not_eq_true', beq_eq_false_iff_ne]
    exact fun hEq => hw (hEq ▸ ha)
  have hlX : ∀ a ∈ s.likes, (!(a == pid)) = true := by
    intro a ha
    simp only [Bool.not_eq_true', beq_eq_false_iff_ne]
    exact fun hEq => hl (hEq ▸ ha)
  have hfw : (s.wishlistArr ++ [pid]).filter (fun x => !(x == pid)) = s.wishlistArr := by
    rw [List.filter_append, List.filter_eq_self.mpr hwX]
    simp
  have hfl : (s.likes ++ [pid]).filter (fun x => !(x == pid)) = s.likes := by
    rw [List.filter_append, List.filter_eq_self.mpr hlX]
    simp
  have h1 : toggleWishlist pid s
      = { s with wishlistArr := s.wishlistArr ++ [pid], likes := s.likes ++ [pid] } := by
    simp [toggleWishlist, toggleProductLike, hw, hl]
  have h2 : toggleWishlist pid
      { s with wishlistArr := s.wishlistArr ++ [pid], likes := s.likes ++ [pid] } = s := by
    simp [toggleWishlist, toggleProductLike, hfw, hfl]
  exact ⟨h1, by rw [h1], by rw [h1, h2]⟩

/-- C7 witness: the amended behaviour at a concrete state holding other products and a foreign wishlist-table row. -/
theorem c7_toggle_involution_witness :
    toggleWishlist 7 { wishlistArr := [5], likes := [5], wishlistTbl := [(2, 5)] }
      = { wishlistArr := [5, 7], likes := [5, 7], wishlistTbl := [(2, 5)] } ∧
    (toggleWishlist 7 { wishlistArr := [5], likes := [5], wishlistTbl := [(2, 5)] }).wishlistTbl
      = [(2, 5)] ∧
    toggleWishlist 7 (toggleWishlist 7 { wishlistArr := [5], likes := [5], wishlistTbl := [(2, 5)] })
      = { wishlistArr := [5], likes := [5], wishlistTbl := [(2, 5)] } :=
  c7_toggle_involution 7 { wishlistArr := [5], likes := [5], wishlistTbl := [(2, 5)] }
    (by decide) (by decide)

/-- C8 counterexample: a backend failure inside toggleWishlist is caught and only written to the console; the caller receives a success-shaped result carrying no structured error. -/
theorem c8_swallowed_error_cex :
    (toggleWishlistOutcome (.error .network)).result = .ok () ∧
    (toggleWishlistOutcome (.error .network)).logged = [DbError.network] :=
  ⟨rfl, rfl⟩

/-- C8 amended: addProduct hands every backend error to its caller in the structured result record, but toggleWishlist and toggleProductLike swallow every backend error — each returns a success-shaped result and only logs the error to the console. -/
theorem c8_error_propagation (e : DbError) :
    (toggleWishlistOutcome (.error e)).result = .ok () ∧
    (toggleProductLikeOutcome (.error e)).result = .ok () ∧
    (toggleWishlistOutcome (.error e)).logged = [e] ∧
    (toggleProductLikeOutcome (.error e)).logged = [e] ∧
    (addProductOutcome (.error e)).result = .error e :=
  ⟨rfl, rfl, rfl, rfl, rfl⟩

/-- C9: for each of the four tables carrying an updated_at column — profiles, sellers, products, orders — an update the policy allows stores the caller-supplied row with updated_at overwritten by the current server time, whatever updated_at value the caller supplied, and with every other column exactly as supplied. -/
theorem c9_updated_at_server_stamped (now : Nat) (caller : UserId)
    (p pNew : ProfileRow) (sr srNew : SellerRow) (pr prNew : ProductRow) (o oNew : OrderRow) :
    (caller = p.id →
      profilesUpdate now caller p.id pNew [p] = [{ pNew with updated_at := now }]) ∧
    (sr.user_id = caller →
      sellersUpdate now caller sr.id srNew [sr] = [{ srNew with updated_at := now }]) ∧
    (pr.seller_id = caller →
      productsUpdate now caller pr.id prNew [pr] = [{ prNew with updated_at := now }]) ∧
    (o.seller_id = caller →
      ordersUpdate now caller o.id oNew [o] = [{ oNew with updated_at := now }]) := by
  refine ⟨fun h => ?_, fun h => ?_, fun h => ?_, fun h => ?_⟩
  · simp [profilesUpdate, handleUpdatedAtProfile, h]
  · simp [sellersUpdate, handleUpdatedAtSeller, h]
  · simp [productsUpdate, handleUpdatedAtProduct, allowedBy_products_update, h]
  · simp [ordersUpdate, handleUpdatedAtOrder, allowedBy_orders_update, h]

/-- C9 witness: concrete updates on all four tables, each supplying a stale updated_at of 99 that the trigger replaces with the server time 5. -/
theorem c9_updated_at_server_stamped_witness :
    profilesUpdate 5 1 1
        { id := 1, full_name := "b", role := "buyer", email := "e", wishlist := [], updated_at := 99 }
        [{ id := 1, full_name := "a", role := "buyer", email := "e", wishlist := [], updated_at := 0 }]
      = [{ id := 1, full_name := "b", role := "buyer", email := "e", wishlist := [], updated_at := 5 }] ∧
    sellersUpdate 5 1 4
        { id := 4, user_id := 1, store_name := "t", updated_at := 99 }
        [{ id := 4, user_id := 1, store_name := "s", updated_at := 0 }]
      = [{ id := 4, user_id := 1, store_name := "t", updated_at := 5 }] ∧
    productsUpdate 5 1 2
        { id := 2, seller_id := 1, title := "v", priceCents := 200, stock := 1,
          is_active := true, updated_at := 99 }
        [{ id := 2, seller_id := 1, title := "u", priceCents := 100, stock := 1,
           is_active := true, updated_at := 0 }]
      = [{ id := 2, seller_id := 1, title := "v", priceCents := 200, stock := 1,
           is_active := true, updated_at := 5 }] ∧
    ordersUpdate 5 1 3
        { id := 3, buyer_id := 2, seller_id := 1, product_id := 2, quantity := 1,
          unit_priceCents := 100, total_priceCents := 100, status := "confirmed", updated_at := 99 }
        [{ id := 3, buyer_id := 2, seller_id := 1, product_id := 2, quantity := 1,
           unit_priceCents := 100, total_priceCents := 100, status := "pending", updated_at := 0 }]
      = [{ id := 3, buyer_id := 2, seller_id := 1, product_id := 2, quantity := 1,
           unit_priceCents := 100, total_priceCents := 100, status := "confirmed", updated_at := 5 }] :=
  ⟨(c9_updated_at_server_stamped 5 1
      { id := 1, full_name := "a", role := "buyer", email := "e", wishlist := [], updated_at := 0 }
      { id := 1, full_name := "b", role := "buyer", email := "e", wishlist := [], updated_at := 99 }
      { id := 4, user_id := 1, store_name := "s", updated_at := 0 }
      { id := 4, user_id := 1, store_name := "t", updated_at := 99 }
      { id := 2, seller_id := 1, title := "u", priceCents := 100, stock := 1,
        is_active := true, updated_at := 0 }
      { id := 2, seller_id := 1, title := "v", priceCents := 200, stock := 1,
        is_active := true, updated_at := 99 }
      { id := 3, buyer_id := 2, seller_id := 1, product_id := 2, quantity := 1,
        unit_priceCents := 100, total_priceCents := 100, status := "pending", updated_at := 0 }
      { id := 3, buyer_id := 2, seller_id := 1, product_id := 2, quantity := 1,
        unit_priceCents := 100, total_priceCents := 100, status := "confirmed",
        updated_at := 99 }).1 rfl,
   (c9_updated_at_server_stamped 5 1
      { id := 1, full_name := "a", role := "buyer", email := "e", wishlist := [], updated_at := 0 }
      { id := 1, full_name := "b", role := "buyer", email := "e", wishlist := [], updated_at := 99 }
      { id := 4, user_id := 1, store_name := "s", updated_at := 0 }
      { id := 4, user_id := 1, store_name := "t", updated_at := 99 }
      { id := 2, seller_id := 1, title := "u", priceCents := 100, stock := 1,
        is_active := true, updated_at := 0 }
      { id := 2, seller_id := 1, title := "v", priceCents := 200, stock := 1,
        is_active := true, updated_at := 99 }
      { id := 3, buyer_id := 2, seller_id := 1, product_id := 2, quantity := 1,
        unit_priceCents := 100, total_priceCents := 100, status := "pending", updated_at := 0 }
      { id := 3, buyer_id := 2, seller_id := 1, product_id := 2, quantity := 1,
        unit_priceCents := 100, total_priceCents := 100, status := "confirmed",
        updated_at := 99 }).2.1 rfl,
   (c9_updated_at_server_stamped 5 1
      { id := 1, full_name := "a", role := "buyer", email := "e", wishlist := [], updated_at := 0 }
      { id := 1, full_name := "b", role := "buyer", email := "e", wishlist := [], updated_at := 99 }
      { id := 4, user_id := 1, store_name := "s", updated_at := 0 }
      { id := 4, user_id := 1, store_name := "t", updated_at := 99 }
      { id := 2, seller_id := 1, title := "u", priceCents := 100, stock := 1,
        is_active := true, updated_at := 0 }
      { id := 2, seller_id := 1, title := "v", priceCents := 200, stock := 1,
        is_active := true, updated_at := 99 }
      { id := 3, buyer_id := 2, seller_id := 1, product_id := 2, quantity := 1,
        unit_priceCents := 100, total_priceCents := 100, status := "pending", updated_at := 0 }
      { id := 3, buyer_id := 2, seller_id := 1, product_id := 2, quantity := 1,
        unit_priceCents := 100, total_priceCents := 100, status := "confirmed",
        updated_at := 99 }).2.2.1 rfl,
   (c9_updated_at_server_stamped 5 1
      { id := 1, full_name := "a", role := "buyer", email := "e", wishlist := [], updated_at := 0 }
      { id := 1, full_name := "b", role := "buyer", email := "e", wishlist := [], updated_at := 99 }
      { id := 4, user_id := 1, store_name := "s", updated_at := 0 }
      { id := 4, user_id := 1, store_name := "t", updated_at := 99 }
      { id := 2, seller_id := 1, title := "u", priceCents := 100, stock := 1,
        is_active := true, updated_at := 0 }
      { id := 2, seller_id := 1, title := "v", priceCents := 200, stock := 1,
        is_active := true, updated_at := 99 }
      { id := 3, buyer_id := 2, seller_id := 1, product_id := 2, quantity := 1,
        unit_priceCents := 100, total_priceCents := 100, status := "pending", updated_at := 0 }
      { id := 3, buyer_id := 2, seller_id := 1, product_id := 2, quantity := 1,
        unit_priceCents := 100, total_priceCents := 100, status := "confirmed",
        updated_at := 99 }).2.2.2 rfl⟩

/-- Positive quantities survive updateCartQuantity. -/
theorem updateCartQuantity_preserves_pos (pid : ProductId) (q : Int) (s : List CartRow)
    (h : ∀ r ∈ s, 0 < r.quantity) : ∀ r ∈ updateCartQuantity pid q s, 0 < r.quantity := by
  intro r hr
  by_cases hq : q ≤ 0
  · simp only [updateCartQuantity, if_pos hq, removeFromCart] at hr
    exact h r (List.mem_of_mem_filter hr)
  · simp only [updateCartQuantity, if_neg hq] at hr
    rcases List.mem_map.mp hr with ⟨r0, hr0, hmap⟩
    by_cases hp : (r0.product_id == pid) = true
    · rw [if_pos hp] at hmap
      rw [← hmap]
      show 0 < q
      omega
    · rw [if_neg hp] at hmap
      rw [← hmap]
      exact h r0 hr0

/-- Positive quantities survive every cart operation. -/
theorem applyCartOp_preserves_pos (uid : UserId) (s : List CartRow) (op : CartOp)
    (h : ∀ r ∈ s, 0 < r.quantity) : ∀ r ∈ applyCartOp uid s op, 0 < r.quantity := by
  cases op with
  | add pid q =>
    simp only [applyCartOp, addToCart]
    cases hf : s.find? (fun r => r.product_id == pid) with
    | some item => exact updateCartQuantity_preserves_pos pid (item.quantity + q) s h
    | none =>
      by_cases hq : q ≤ 0
      · simpa [hq] using h
      · intro r hr
        rw [if_neg hq] at hr
        rcases List.mem_append.mp hr with h1 | h2
        · exact h r h1
        · have : r = { user_id := uid, product_id := pid, quantity := q } := by
            simpa using h2
          rw [this]
          show 0 < q
          omega
  | setQty pid q => exact updateCartQuantity_preserves_pos pid q s h
  | remove pid =>
    intro r hr
    exact h r (List.mem_of_mem_filter hr)
  | clear =>
    intro r hr
    simp [applyCartOp] at hr

/-- Positive quantities hold at the end of any fold of cart operations. -/
theorem cart_fold_preserves_pos (uid : UserId) (ops : List CartOp) :
    ∀ s, (∀ r ∈ s, 0 < r.quantity) →
      ∀ r ∈ ops.foldl (applyCartOp uid) s, 0 < r.quantity := by
  induction ops with
  | nil =>
    intro s hs
    simpa using hs
  | cons op rest ih =>
    intro s hs
    exact ih _ (applyCartOp_preserves_pos uid s op hs)

/-- C10: updateCartQuantity with a quantity of zero or less is exactly removeFromCart, and every cart state reachable from the empty cart through the cart operations contains only items with positive quantity. -/
theorem c10_cart_quantity_positive (uid : UserId) :
    (∀ (pid : ProductId) (q : Int) (s : List CartRow), q ≤ 0 →
      updateCartQuantity pid q s = removeFromCart pid s) ∧
    (∀ ops : List CartOp, ∀ r ∈ runCart uid ops, 0 < r.quantity) := by
  constructor
  · intro pid q s hq
    simp [updateCartQuantity, hq]
  · intro ops
    exact cart_fold_preserves_pos uid ops [] (by simp)

/-- C10 witness: a zero-quantity update on a concrete one-item cart deletes the item. -/
theorem c10_cart_quantity_positive_witness :
    updateCartQuantity 1 0 [{ user_id := 0, product_id := 1, quantity := 2 }]
      = removeFromCart 1 [{ user_id := 0, product_id := 1, quantity := 2 }] :=
  (c10_cart_quantity_positive 0).1 1 0
    [{ user_id := 0, product_id := 1, quantity := 2 }] (by decide)

end Bolt
